import Mathlib

/-!
Shallow embedding of `src/MeetWrapper.js` (StreamDeck-Meet).

The class `MeetWrapper` binds a StreamDeck device to the Google Meet UI.
We model:
  - the DOM queries the wrapper performs, as a flat snapshot record `Dom`
    whose fields correspond one-to-one to the query selectors in the source;
  - the mutable private fields of the class, as the record `St`;
  - the external collaborators (StreamDeck driver, Hue lights), as `Config`;
  - the observable side effects (device calls, simulated clicks, hue
    requests), as the inductive `Effect`;
  - operations that can throw a TypeError in JavaScript (a dereference of a
    null query result, or `MutationObserver.observe` on a null target) return
    an `ok : Bool` flag: `false` means the operation threw, and the remaining
    statements of the handler were skipped.

Observer attachments are modelled by counters in `St` (one per observer kind),
since the claims quantify over how many observers are attached to an element.
-/

namespace MeetWrapper

/-- The four room names of `#ROOM_NAMES` in the source. -/
inductive Room where
  | lobby
  | greenRoom
  | meeting
  | exitHall
deriving DecidableEq, Repr

/-- Result of `document.querySelector('[jsname=Dg9Wp]')?.firstChild` (mic) or
`document.querySelector('[jsname=R3GXJb]')?.firstChild` (cam): an element
whose `dataset.isMuted` may or may not be present. -/
structure MuteButton where
  isMuted : Option String
deriving DecidableEq, Repr

/-- Result of `document.querySelector('.p2SYhf')` (hand) or
`document.querySelector('.Q8K3Le')` (cc): an element with a class list and a
possibly-absent first child. -/
structure ToggleButton where
  classes : List String
  hasFirstChild : Bool
deriving DecidableEq, Repr

/-- Element matching `[aria-selected=true]` inside the side-panel picker; its
`data-tab-id` attribute may be absent. -/
structure SelectedTab where
  tabId : Option String
deriving DecidableEq, Repr

/-- Result of `document.querySelector('[jsname=I0Fcpe]')`: the side-panel tab
picker together with its currently selected tab, if any. -/
structure Picker where
  selected : Option SelectedTab
deriving DecidableEq, Repr

/-- Element matching `[data-tab-id="1"]` (users) or `[data-tab-id="2"]`
(chat): a tab button with a possibly-absent `aria-expanded` attribute. -/
structure TabButton where
  ariaExpanded : Option String
deriving DecidableEq, Repr

/-- One DOM snapshot, as seen through the exact query selectors used by
`MeetWrapper`. A `Bool` field records whether the query matches anything when
only existence (or clickability) of the result matters; an `Option` field
carries the attributes the source reads from the result. -/
structure Dom where
  /-- `window.location.pathname` -/
  pathname : String
  /-- `div[data-second-screen]` matches -/
  hasSecondScreen : Bool
  /-- `.KWIIWd` (green room marker) matches -/
  hasGreenRoomMarker : Bool
  /-- `.CRFCdf` (exit hall marker) matches -/
  hasExitHallMarker : Bool
  /-- `[jsname=EaZ7Cc]` (status bar) matches -/
  statusBar : Bool
  /-- `[jsname=Dg9Wp]?.firstChild` (mic button) -/
  micButton : Option MuteButton
  /-- `[jsname=R3GXJb]?.firstChild` (cam button) -/
  camButton : Option MuteButton
  /-- `.p2SYhf` (hand button container) -/
  handButton : Option ToggleButton
  /-- `.Q8K3Le` (cc button container) -/
  ccButton : Option ToggleButton
  /-- `[jsname=PTpBtc]` (stop presenting button) matches -/
  stopPresentingButton : Bool
  /-- `[jsname=I0Fcpe]` (side panel tab picker) -/
  picker : Option Picker
  /-- `[jsname=o4MlPd]` (side panel container) matches -/
  sidePanelElem : Bool
  /-- `[jsname=Yz8Ubc]` (open side panel) matches -/
  panelElem : Bool
  /-- `[data-tab-id="1"]` (users tab button) -/
  userTabButton : Option TabButton
  /-- `[data-tab-id="2"]` (chat tab button) -/
  chatTabButton : Option TabButton
  /-- `[jscontroller=soHxf]` (close panel button) matches -/
  closePanelElem : Bool
  /-- `[jsname=CuSyi]` (start instant meeting) matches -/
  startInstantElem : Bool
  /-- `[data-default-focus=true]` (start next meeting) matches -/
  startNextElem : Bool
  /-- `[jsname=Qx7uuf]` (enter meeting from green room) matches -/
  enterMeetingElem : Bool
  /-- `[jsname=CQylAd]` (hang up) matches -/
  hangUpElem : Bool
  /-- `[jsname=oI7Fj] [role=button]` (rejoin) matches -/
  rejoinElem : Bool
  /-- `[jsname=WIVZEd] [role=button]` (home) matches -/
  homeElem : Bool
deriving DecidableEq, Repr

/-- The StreamDeck driver interface consumed by the wrapper:
`isConnected` and `buttonNameToId` (negative id means the name is not bound
in the current button layout). -/
structure StreamDeck where
  isConnected : Bool
  buttonNameToId : String → Int

/-- The Hue lights interface consumed by the wrapper: only the `auto` flag is
read; `on(bool)` is an effect. -/
structure HueLights where
  auto : Bool
deriving DecidableEq, Repr

/-- The two constructor arguments, fixed for the lifetime of the instance.
`hueLights` is optional: the source guards most uses with `this.#hueLights?`. -/
structure Config where
  streamDeck : StreamDeck
  hueLights : Option HueLights

/-- The mutable private fields of `MeetWrapper`, plus one attachment counter
per `MutationObserver` created by the source (how many times `observe` has
been successfully called for that observer kind). -/
structure St where
  currentRoom : Option Room := none
  isPresenting : Bool := false
  isSidePanelVisible : Bool := false
  ccButtonReady : Bool := false
  handButtonReady : Bool := false
  bodyObs : Nat := 0
  muteObs : Nat := 0
  statusBarObs : Nat := 0
  sidePanelObs : Nat := 0
  selectedPanelObs : Nat := 0
  handObs : Nat := 0
  ccObs : Nat := 0
deriving DecidableEq, Repr

/-- Initial state: all private fields at their declared initial values. -/
def initSt : St := {}

/-- Observable side effects of the wrapper. -/
inductive Effect where
  /-- `streamDeck.clearAllButtons()` -/
  | clearAllButtons
  /-- `streamDeck.fillURL(buttonId, url-of iconName, true)` -/
  | fillURL (buttonId : Int) (iconName : String)
  /-- `elem.click()`, labelled by the selector of the clicked element -/
  | click (target : String)
  /-- `hueLights.on(onOff)` -/
  | hueOn (onOff : Bool)
deriving DecidableEq, Repr

/-- Outcome of a handler that can throw: final state, effects emitted before
any throw, and `ok = false` when a TypeError was thrown. -/
structure Outcome where
  st : St
  effects : List Effect
  ok : Bool
deriving DecidableEq, Repr

/-- Icon names of the fill requests in an effect list. -/
def fillNames : List Effect → List String
  | [] => []
  | Effect.fillURL _ n :: es => n :: fillNames es
  | _ :: es => fillNames es

/-- Source `#drawButton(iconName)`: skip when the deck is not connected or
the name is not bound (negative id); otherwise request a fill. -/
def drawButton (cfg : Config) (iconName : String) : List Effect :=
  if !cfg.streamDeck.isConnected then []
  else
    let buttonId := cfg.streamDeck.buttonNameToId iconName
    if buttonId < 0 then []
    else [Effect.fillURL buttonId iconName]

/-- Source `#resetButtons()`. -/
def resetButtons (cfg : Config) : List Effect :=
  if !cfg.streamDeck.isConnected then []
  else [Effect.clearAllButtons]

/-- Source `#drawHueButtons()`. -/
def drawHueButtons (cfg : Config) : List Effect :=
  if !cfg.streamDeck.isConnected then []
  else
    match cfg.hueLights with
    | none => []
    | some _ => drawButton cfg "light-on" ++ drawButton cfg "light-off"

/-- The `if (this.#hueLights?.auto) this.#hueLights.on(false)` tail of each
room-entry method. -/
def hueAutoOff (cfg : Config) : List Effect :=
  match cfg.hueLights with
  | some h => if h.auto then [Effect.hueOn false] else []
  | none => []

/-- Source `#updateIsPresenting()`: compares the derived value against the
stored `#isPresenting` and skips the redraw when unchanged. -/
def updateIsPresenting (cfg : Config) (dom : Dom) (st : St) : St × List Effect :=
  let newVal := dom.stopPresentingButton
  if st.isPresenting = newVal then (st, [])
  else
    let icon := if newVal then "present-stop" else "blank"
    ({st with isPresenting := newVal}, drawButton cfg icon)

/-- Source `#updateIsMicMuted()`: skip when the mic button is absent;
otherwise redraw unconditionally from the current snapshot. -/
def updateIsMicMuted (cfg : Config) (dom : Dom) : List Effect :=
  match dom.micButton with
  | none => []
  | some button =>
    let img := if button.isMuted = some "true" then "mic-disabled" else "mic"
    drawButton cfg img

/-- Source `#updateIsCamMuted()`. -/
def updateIsCamMuted (cfg : Config) (dom : Dom) : List Effect :=
  match dom.camButton with
  | none => []
  | some button =>
    let img := if button.isMuted = some "true" then "cam-disabled" else "cam"
    drawButton cfg img

/-- Source `#updateHandState()`: icon depends on `classList.contains('SNTzF')`. -/
def updateHandState (cfg : Config) (dom : Dom) : List Effect :=
  match dom.handButton with
  | none => []
  | some elem =>
    let img := if elem.classes.contains "SNTzF" then "hand-raised" else "hand"
    drawButton cfg img

/-- Source `#updateCCState()`: icon depends on `classList.contains('o7y9G')`. -/
def updateCCState (cfg : Config) (dom : Dom) : List Effect :=
  match dom.ccButton with
  | none => []
  | some elem =>
    let img := if elem.classes.contains "o7y9G" then "cc-on" else "cc"
    drawButton cfg img

/-- The `picker?.querySelector('[aria-selected=true]')?.getAttribute('data-tab-id')`
chain of `#updateSidePanel`. -/
def selectedTabId (dom : Dom) : Option String :=
  match dom.picker with
  | none => none
  | some p =>
    match p.selected with
    | none => none
    | some sel => sel.tabId

/-- Source `#updateSidePanel()`: always draws both the users and the chat
icon, chosen from the selected tab id. -/
def updateSidePanel (cfg : Config) (dom : Dom) : List Effect :=
  let selectedId := selectedTabId dom
  let userIcon := if selectedId = some "1" then "users-open" else "users"
  let chatIcon := if selectedId = some "2" then "chat-open" else "chat"
  drawButton cfg userIcon ++ drawButton cfg chatIcon

/-- Source `#tapElement(querySelector)`: click only when the query matches;
never throws. -/
def tapElement (present : Bool) (querySelector : String) : List Effect × Bool :=
  (if present then [Effect.click querySelector] else [], true)

/-- Source `#tapStartInstantMeeting()`. -/
def tapStartInstantMeeting (dom : Dom) : List Effect × Bool :=
  tapElement dom.startInstantElem "[jsname=CuSyi]"

/-- Source `#tapStartNextMeeting()`. -/
def tapStartNextMeeting (dom : Dom) : List Effect × Bool :=
  tapElement dom.startNextElem "[data-default-focus=true]"

/-- Source `#tapEnterMeeting()`. -/
def tapEnterMeeting (dom : Dom) : List Effect × Bool :=
  tapElement dom.enterMeetingElem "[jsname=Qx7uuf]"

/-- Source `#tapMic()`: guarded click of the mic button. -/
def tapMic (dom : Dom) : List Effect × Bool :=
  match dom.micButton with
  | some _ => ([Effect.click "[jsname=Dg9Wp] firstChild"], true)
  | none => ([], true)

/-- Source `#tapCam()`: guarded click of the cam button. -/
def tapCam (dom : Dom) : List Effect × Bool :=
  match dom.camButton with
  | some _ => ([Effect.click "[jsname=R3GXJb] firstChild"], true)
  | none => ([], true)

/-- Source `#tapHand()`: guarded click of `#getHandButton()?.firstChild`. -/
def tapHand (dom : Dom) : List Effect × Bool :=
  match dom.handButton with
  | some elem =>
    (if elem.hasFirstChild then [Effect.click ".p2SYhf firstChild"] else [], true)
  | none => ([], true)

/-- Source `#tapCC()`: guarded click of `#getCCButton()?.firstChild`. -/
def tapCC (dom : Dom) : List Effect × Bool :=
  match dom.ccButton with
  | some elem =>
    (if elem.hasFirstChild then [Effect.click ".Q8K3Le firstChild"] else [], true)
  | none => ([], true)

/-- Source `#tapClosePanel()`. -/
def tapClosePanel (dom : Dom) : List Effect × Bool :=
  tapElement dom.closePanelElem "[jscontroller=soHxf]"

/-- Source `#tapUsers()`. When the users tab button query returns null the
source throws a TypeError on either branch (`userButton.getAttribute` when
the panel is open, `userButton.click()` otherwise), modelled by `ok = false`. -/
def tapUsers (dom : Dom) : List Effect × Bool :=
  match dom.userTabButton with
  | none => ([], false)
  | some userButton =>
    if dom.panelElem && (userButton.ariaExpanded = some "true") then
      tapClosePanel dom
    else
      ([Effect.click "[data-tab-id=1]"], true)

/-- Source `#tapChat()`. Same throwing behaviour as `tapUsers` when the chat
tab button query returns null. -/
def tapChat (dom : Dom) : List Effect × Bool :=
  match dom.chatTabButton with
  | none => ([], false)
  | some chatButton =>
    if dom.panelElem && (chatButton.ariaExpanded = some "true") then
      tapClosePanel dom
    else
      ([Effect.click "[data-tab-id=2]"], true)

/-- Source `#tapStopPresenting()`: guarded click. -/
def tapStopPresenting (dom : Dom) : List Effect × Bool :=
  (if dom.stopPresentingButton then [Effect.click "[jsname=PTpBtc]"] else [], true)

/-- Source `#tapHangUp()`. -/
def tapHangUp (dom : Dom) : List Effect × Bool :=
  tapElement dom.hangUpElem "[jsname=CQylAd]"

/-- Source `#tapRejoin()`. -/
def tapRejoin (dom : Dom) : List Effect × Bool :=
  tapElement dom.rejoinElem "[jsname=oI7Fj] [role=button]"

/-- Source `#tapHome()`. -/
def tapHome (dom : Dom) : List Effect × Bool :=
  tapElement dom.homeElem "[jsname=WIVZEd] [role=button]"

/-- Source `#handleStreamDeckPress(buttonId)`: the global light actions are
tested first, then the actions bound in the current room, in source order.
The tracker state is never written by this handler; `ok = false` records the
TypeError thrown when a light action fires with `#hueLights` null, or when a
tap throws. -/
def handleStreamDeckPress (cfg : Config) (dom : Dom) (st : St) (buttonId : Int) :
    St × List Effect × Bool :=
  let nameToId := cfg.streamDeck.buttonNameToId
  if buttonId = nameToId "light-on" then
    match cfg.hueLights with
    | some _ => (st, [Effect.hueOn true], true)
    | none => (st, [], false)
  else if buttonId = nameToId "light-off" then
    match cfg.hueLights with
    | some _ => (st, [Effect.hueOn false], true)
    | none => (st, [], false)
  else if st.currentRoom = some Room.lobby then
    if buttonId = nameToId "start-next" then
      let r := tapStartNextMeeting dom
      (st, r.1, r.2)
    else if buttonId = nameToId "start-instant" then
      let r := tapStartInstantMeeting dom
      (st, r.1, r.2)
    else (st, [], true)
  else if st.currentRoom = some Room.greenRoom then
    if buttonId = nameToId "enter-meeting" then
      let r := tapEnterMeeting dom
      (st, r.1, r.2)
    else if buttonId = nameToId "mic" then
      let r := tapMic dom
      (st, r.1, r.2)
    else if buttonId = nameToId "cam" then
      let r := tapCam dom
      (st, r.1, r.2)
    else (st, [], true)
  else if st.currentRoom = some Room.meeting then
    if buttonId = nameToId "users" then
      let r := tapUsers dom
      (st, r.1, r.2)
    else if buttonId = nameToId "chat" then
      let r := tapChat dom
      (st, r.1, r.2)
    else if buttonId = nameToId "present-stop" then
      let r := tapStopPresenting dom
      (st, r.1, r.2)
    else if buttonId = nameToId "mic" then
      let r := tapMic dom
      (st, r.1, r.2)
    else if buttonId = nameToId "cam" then
      let r := tapCam dom
      (st, r.1, r.2)
    else if buttonId = nameToId "hand" then
      let r := tapHand dom
      (st, r.1, r.2)
    else if buttonId = nameToId "cc" then
      let r := tapCC dom
      (st, r.1, r.2)
    else if buttonId = nameToId "end-call" then
      let r := tapHangUp dom
      (st, r.1, r.2)
    else (st, [], true)
  else if st.currentRoom = some Room.exitHall then
    if buttonId = nameToId "rejoin" then
      let r := tapRejoin dom
      (st, r.1, r.2)
    else if buttonId = nameToId "home" then
      let r := tapHome dom
      (st, r.1, r.2)
    else (st, [], true)
  else (st, [], true)

/-- Source `#enterLobby()`: idempotent on re-entry; otherwise set the room and
draw the lobby buttons. -/
def enterLobby (cfg : Config) (st : St) : St × List Effect :=
  if st.currentRoom = some Room.lobby then (st, [])
  else
    ({st with currentRoom := some Room.lobby},
      resetButtons cfg ++ drawHueButtons cfg
        ++ drawButton cfg "start-next" ++ drawButton cfg "start-instant"
        ++ hueAutoOff cfg)

/-- Source `#enterGreenRoom()`. -/
def enterGreenRoom (cfg : Config) (dom : Dom) (st : St) : St × List Effect :=
  if st.currentRoom = some Room.greenRoom then (st, [])
  else
    ({st with currentRoom := some Room.greenRoom},
      resetButtons cfg ++ drawHueButtons cfg ++ drawButton cfg "enter-meeting"
        ++ updateIsMicMuted cfg dom ++ updateIsCamMuted cfg dom
        ++ hueAutoOff cfg)

/-- Source `#enterExitHall()`. -/
def enterExitHall (cfg : Config) (st : St) : St × List Effect :=
  if st.currentRoom = some Room.exitHall then (st, [])
  else
    ({st with currentRoom := some Room.exitHall},
      resetButtons cfg ++ drawHueButtons cfg ++ drawButton cfg "rejoin"
        ++ drawButton cfg "home" ++ hueAutoOff cfg)

/-- Source `#enterMeeting()`: idempotent on re-entry. On a real entry the
room is set first; then `observe` is called on the status bar and on the side
panel container, each of which throws a TypeError when the query returned
null (`ok = false`, remaining statements skipped); then the buttons are reset
and redrawn. -/
def enterMeeting (cfg : Config) (dom : Dom) (st : St) : Outcome :=
  if st.currentRoom = some Room.meeting then ⟨st, [], true⟩
  else
    let st1 := {st with currentRoom := some Room.meeting}
    if !dom.statusBar then ⟨st1, [], false⟩
    else
      let st2 := {st1 with statusBarObs := st1.statusBarObs + 1}
      if !dom.sidePanelElem then ⟨st2, [], false⟩
      else
        let st3 := {st2 with sidePanelObs := st2.sidePanelObs + 1}
        ⟨st3,
          resetButtons cfg ++ drawHueButtons cfg ++ updateSidePanel cfg dom
            ++ updateIsMicMuted cfg dom ++ updateIsCamMuted cfg dom
            ++ updateHandState cfg dom ++ updateCCState cfg dom
            ++ drawButton cfg "end-call" ++ hueAutoOff cfg,
          true⟩

/-- The room classifier of the body observer callback: the three markers are
tested in source order (meeting, then green room, then exit hall). -/
def classifyRoom (dom : Dom) : Option Room :=
  if dom.hasSecondScreen then some Room.meeting
  else if dom.hasGreenRoomMarker then some Room.greenRoom
  else if dom.hasExitHallMarker then some Room.exitHall
  else none

/-- The body `MutationObserver` callback installed by the constructor:
classify the room, enter it, then (when no TypeError was thrown) update the
presenting state. -/
def bodyObserverStep (cfg : Config) (dom : Dom) (st : St) : Outcome :=
  if dom.hasSecondScreen then
    let o := enterMeeting cfg dom st
    if o.ok then
      let p := updateIsPresenting cfg dom o.st
      ⟨p.1, o.effects ++ p.2, true⟩
    else o
  else if dom.hasGreenRoomMarker then
    let r := enterGreenRoom cfg dom st
    let p := updateIsPresenting cfg dom r.1
    ⟨p.1, r.2 ++ p.2, true⟩
  else if dom.hasExitHallMarker then
    let r := enterExitHall cfg st
    let p := updateIsPresenting cfg dom r.1
    ⟨p.1, r.2 ++ p.2, true⟩
  else
    let p := updateIsPresenting cfg dom st
    ⟨p.1, p.2, true⟩

/-- The mute `MutationObserver` callback installed by the constructor. -/
def muteObserverStep (cfg : Config) (dom : Dom) : List Effect :=
  updateIsMicMuted cfg dom ++ updateIsCamMuted cfg dom

/-- Source `#setupHandButton()`: the ready flag is set first (and never
reset anywhere in the source); then the hand observer is attached and the
hand state updated. -/
def setupHandButton (cfg : Config) (dom : Dom) (st : St) : Outcome :=
  let st1 := {st with handButtonReady := true}
  match dom.handButton with
  | none => ⟨st1, [], false⟩
  | some _ =>
    ⟨{st1 with handObs := st1.handObs + 1}, updateHandState cfg dom, true⟩

/-- Source `#setupCCButton()`. -/
def setupCCButton (cfg : Config) (dom : Dom) (st : St) : Outcome :=
  let st1 := {st with ccButtonReady := true}
  match dom.ccButton with
  | none => ⟨st1, [], false⟩
  | some _ =>
    ⟨{st1 with ccObs := st1.ccObs + 1}, updateCCState cfg dom, true⟩

/-- One `MutationRecord` as inspected by the status bar observer. -/
structure MRec where
  isChildList : Bool
  addedNodes : Nat
deriving DecidableEq, Repr

/-- Body of the `for (const change of list)` loop in the status bar observer:
on a childList record with added nodes, lazily set up the hand and cc
watchers, each guarded by its ready flag and element presence. -/
def statusBarChangeStep (cfg : Config) (dom : Dom) (st : St) (change : MRec) :
    Outcome :=
  if change.isChildList && 0 < change.addedNodes then
    let o1 :=
      if !st.handButtonReady && dom.handButton.isSome then
        setupHandButton cfg dom st
      else ⟨st, [], true⟩
    if !o1.ok then o1
    else if !o1.st.ccButtonReady && dom.ccButton.isSome then
      let o2 := setupCCButton cfg dom o1.st
      ⟨o2.st, o1.effects ++ o2.effects, o2.ok⟩
    else o1
  else ⟨st, [], true⟩

/-- The status bar `MutationObserver` callback: fold the loop body over the
mutation records, stopping at a thrown TypeError. -/
def statusBarObserverStep (cfg : Config) (dom : Dom) (st : St) :
    List MRec → Outcome
  | [] => ⟨st, [], true⟩
  | c :: cs =>
    let o := statusBarChangeStep cfg dom st c
    if !o.ok then o
    else
      let rest := statusBarObserverStep cfg dom o.st cs
      ⟨rest.st, o.effects ++ rest.effects, rest.ok⟩

/-- The side panel `MutationObserver` callback: derive visibility from the
picker query, skip when unchanged, otherwise store it, update the icons and
(on appearance) attach the selected-panel observer to the picker. -/
def sidePanelObserverStep (cfg : Config) (dom : Dom) (st : St) : St × List Effect :=
  let newVal := dom.picker.isSome
  if st.isSidePanelVisible = newVal then (st, [])
  else
    let st1 := {st with isSidePanelVisible := newVal}
    if newVal then
      ({st1 with selectedPanelObs := st1.selectedPanelObs + 1},
        updateSidePanel cfg dom)
    else (st1, updateSidePanel cfg dom)

/-- The selected-panel `MutationObserver` callback: unconditionally update
the side panel icons. -/
def selectedPanelObserverStep (cfg : Config) (dom : Dom) : List Effect :=
  updateSidePanel cfg dom

/-- The constructor: the keydown listener is always installed; on the landing
page path the lobby is entered and the method returns before any
`MutationObserver` is created; otherwise the body and mute observers are
installed and no room is entered yet. -/
def constructorRun (cfg : Config) (dom : Dom) : St × List Effect :=
  if dom.pathname = "/" then enterLobby cfg initSt
  else ({initSt with bodyObs := 1, muteObs := 1}, [])

/-- External events that can reach the instance after construction: one per
observer callback, plus device button presses. -/
inductive Event where
  | bodyMut (dom : Dom)
  | muteMut (dom : Dom)
  | statusBarMut (changes : List MRec) (dom : Dom)
  | sidePanelMut (dom : Dom)
  | selectedPanelMut (dom : Dom)
  | handMut (dom : Dom)
  | ccMut (dom : Dom)
  | press (buttonId : Int) (dom : Dom)

/-- State transition of one event. The mute, selected-panel, hand and cc
callbacks only emit draw effects and never write tracker state. -/
def sysStep (cfg : Config) (st : St) : Event → St
  | Event.bodyMut dom => (bodyObserverStep cfg dom st).st
  | Event.muteMut _ => st
  | Event.statusBarMut changes dom => (statusBarObserverStep cfg dom st changes).st
  | Event.sidePanelMut dom => (sidePanelObserverStep cfg dom st).1
  | Event.selectedPanelMut _ => st
  | Event.handMut _ => st
  | Event.ccMut _ => st
  | Event.press buttonId dom => (handleStreamDeckPress cfg dom st buttonId).1

/-- Fold of the system over a list of events. -/
def sysRun (cfg : Config) (st : St) (evs : List Event) : St :=
  evs.foldl (sysStep cfg) st

/-- Fold of the body observer callback over a list of DOM snapshots. -/
def bodyRun (cfg : Config) (st : St) (doms : List Dom) : St :=
  doms.foldl (fun s d => (bodyObserverStep cfg d s).st) st

/-- The room of the last snapshot in `doms` matched by the classifier, or
`init` when none matches. -/
def lastRoomMatch (init : Option Room) (doms : List Dom) : Option Room :=
  doms.foldl (fun acc d => (classifyRoom d).elim acc some) init

/-- The symbolic button names tested by `#handleStreamDeckPress` in each
room (the global light actions excluded). -/
def roomBoundNames : Option Room → List String
  | some Room.lobby => ["start-next", "start-instant"]
  | some Room.greenRoom => ["enter-meeting", "mic", "cam"]
  | some Room.meeting =>
    ["users", "chat", "present-stop", "mic", "cam", "hand", "cc", "end-call"]
  | some Room.exitHall => ["rejoin", "home"]
  | none => []

/-- The fields of `St` governing the hand and cc watchers: ready flags and
attachment counters. -/
def watchFields (st : St) : Bool × Nat × Bool × Nat :=
  (st.handButtonReady, st.handObs, st.ccButtonReady, st.ccObs)

/-- Invariant tying each ready flag to its attachment counter: while the flag
is false no observer is attached, and at most one is ever attached. -/
def HandCcInv (st : St) : Prop :=
  (st.handButtonReady = false → st.handObs = 0) ∧ st.handObs ≤ 1 ∧
    (st.ccButtonReady = false → st.ccObs = 0) ∧ st.ccObs ≤ 1

/-- Sample connected deck whose layout binds every name to button 0. -/
def deckAll : StreamDeck := ⟨true, fun _ => 0⟩

/-- Sample configuration: connected deck, hue lights present, auto off. -/
def cfgHue : Config := ⟨deckAll, some ⟨false⟩⟩

/-- Sample configuration: connected deck, no hue lights. -/
def cfgNoHue : Config := ⟨deckAll, none⟩

/-- Sample configuration: disconnected deck. -/
def cfgOff : Config := ⟨⟨false, fun _ => 0⟩, none⟩

/-- DOM snapshot on which every query fails. -/
def domEmpty : Dom :=
  { pathname := "/abc-defg-hij"
    hasSecondScreen := false
    hasGreenRoomMarker := false
    hasExitHallMarker := false
    statusBar := false
    micButton := none
    camButton := none
    handButton := none
    ccButton := none
    stopPresentingButton := false
    picker := none
    sidePanelElem := false
    panelElem := false
    userTabButton := none
    chatTabButton := none
    closePanelElem := false
    startInstantElem := false
    startNextElem := false
    enterMeetingElem := false
    hangUpElem := false
    rejoinElem := false
    homeElem := false }

/-- Landing page snapshot. -/
def domLobby : Dom := {domEmpty with pathname := "/"}

/-- Fully rendered meeting snapshot: meeting marker present, all meeting
elements present, nothing muted, hand down, cc off, no tab selected. -/
def domMeeting : Dom :=
  { domEmpty with
    hasSecondScreen := true
    statusBar := true
    micButton := some ⟨some "false"⟩
    camButton := some ⟨some "false"⟩
    handButton := some ⟨[], true⟩
    ccButton := some ⟨[], true⟩
    sidePanelElem := true
    panelElem := true
    userTabButton := some ⟨some "true"⟩
    chatTabButton := some ⟨none⟩
    closePanelElem := true }

/-- Meeting snapshot with the users tab selected in the picker. -/
def domMeetingUsersTab : Dom :=
  {domMeeting with picker := some ⟨some ⟨some "1"⟩⟩}

/-- State after the tracker has already entered the meeting room. -/
def stMeeting : St := {initSt with currentRoom := some Room.meeting}

/-- Helper: `fillNames` distributes over list append. -/
theorem fillNames_append (a b : List Effect) :
    fillNames (a ++ b) = fillNames a ++ fillNames b := by
  induction a with
  | nil => rfl
  | cons e es ih => cases e <;> simp [fillNames, ih]

/-- Helper: a connected deck with a bound name yields exactly one fill. -/
theorem drawButton_mapped (cfg : Config) (n : String)
    (hconn : cfg.streamDeck.isConnected = true)
    (hmap : 0 ≤ cfg.streamDeck.buttonNameToId n) :
    drawButton cfg n = [Effect.fillURL (cfg.streamDeck.buttonNameToId n) n] := by
  simp [drawButton, hconn, not_lt.mpr hmap]

/-- C5: `#drawButton` issues a fill request exactly when the deck is
connected and the layout binds the icon name to a non-negative button id;
when disconnected or unbound it returns with no device call and no error. -/
theorem drawButton_c5 (cfg : Config) (iconName : String) :
    (drawButton cfg iconName
        = [Effect.fillURL (cfg.streamDeck.buttonNameToId iconName) iconName]
      ↔ cfg.streamDeck.isConnected = true
          ∧ 0 ≤ cfg.streamDeck.buttonNameToId iconName)
  ∧ (drawButton cfg iconName = []
      ↔ cfg.streamDeck.isConnected = false
          ∨ cfg.streamDeck.buttonNameToId iconName < 0) := by
  by_cases hc : cfg.streamDeck.isConnected = true
  · by_cases hn : cfg.streamDeck.buttonNameToId iconName < 0
    · simp [drawButton, hc, hn]
    · simp [drawButton, hc, hn, not_lt.mp hn]
  · have hc' : cfg.streamDeck.isConnected = false := by
      revert hc
      cases cfg.streamDeck.isConnected <;> simp
    simp [drawButton, hc']

/-- C6: `#updateSidePanel` draws exactly the pair users-open/chat when the
selected tab id is 1, users/chat-open when it is 2, users/chat when nothing
is selected (including an absent picker), and never any other pair. -/
theorem updateSidePanel_c6 (cfg : Config) (dom : Dom)
    (hconn : cfg.streamDeck.isConnected = true)
    (hmap : ∀ name, 0 ≤ cfg.streamDeck.buttonNameToId name) :
    (selectedTabId dom = some "1" →
      fillNames (updateSidePanel cfg dom) = ["users-open", "chat"])
  ∧ (selectedTabId dom = some "2" →
      fillNames (updateSidePanel cfg dom) = ["users", "chat-open"])
  ∧ (selectedTabId dom = none →
      fillNames (updateSidePanel cfg dom) = ["users", "chat"])
  ∧ (fillNames (updateSidePanel cfg dom) = ["users-open", "chat"]
      ∨ fillNames (updateSidePanel cfg dom) = ["users", "chat-open"]
      ∨ fillNames (updateSidePanel cfg dom) = ["users", "chat"]) := by
  have hdraw : ∀ n, drawButton cfg n
      = [Effect.fillURL (cfg.streamDeck.buttonNameToId n) n] :=
    fun n => drawButton_mapped cfg n hconn (hmap n)
  refine ⟨?_, ?_, ?_, ?_⟩
  · intro h
    simp [updateSidePanel, h, fillNames_append, hdraw, fillNames]
  · intro h
    simp [updateSidePanel, h, fillNames_append, hdraw, fillNames]
  · intro h
    simp [updateSidePanel, h, fillNames_append, hdraw, fillNames]
  · rcases hsel : selectedTabId dom with _ | tid
    · right; right
      simp [updateSidePanel, hsel, fillNames_append, hdraw, fillNames]
    · by_cases h1 : tid = "1"
      · left
        simp [updateSidePanel, hsel, h1, fillNames_append, hdraw, fillNames]
      · by_cases h2 : tid = "2"
        · right; left
          simp [updateSidePanel, hsel, h1, h2, fillNames_append, hdraw, fillNames]
        · right; right
          simp [updateSidePanel, hsel, h1, h2, fillNames_append, hdraw, fillNames]

/-- C6 witness: with the users tab selected, the icons are users-open and
chat. -/
theorem updateSidePanel_c6_witness :
    fillNames (updateSidePanel cfgHue domMeetingUsersTab) = ["users-open", "chat"] :=
  (updateSidePanel_c6 cfgHue domMeetingUsersTab rfl (fun _ => le_refl 0)).1 rfl

/-- C7: `#tapUsers` and `#tapChat` decide between closing and opening from
the aria-expanded attribute read from the snapshot at dispatch time: the
close-panel control is clicked exactly when the open-panel element exists and
the attribute reads true; otherwise the tab button itself is clicked. -/
theorem panelToggle_c7 (dom : Dom) (utb ctb : TabButton)
    (hu : dom.userTabButton = some utb) (hc : dom.chatTabButton = some ctb)
    (hclose : dom.closePanelElem = true) :
    tapUsers dom
      = (if dom.panelElem && (utb.ariaExpanded = some "true")
          then ([Effect.click "[jscontroller=soHxf]"], true)
          else ([Effect.click "[data-tab-id=1]"], true))
  ∧ tapChat dom
      = (if dom.panelElem && (ctb.ariaExpanded = some "true")
          then ([Effect.click "[jscontroller=soHxf]"], true)
          else ([Effect.click "[data-tab-id=2]"], true)) := by
  constructor
  · simp only [tapUsers, hu]
    split <;> simp_all [tapClosePanel, tapElement]
  · simp only [tapChat, hc]
    split <;> simp_all [tapClosePanel, tapElement]

/-- C7 witness: with the users panel open and aria-expanded true, pressing
users clicks the close-panel control; with the chat tab lacking the
attribute, pressing chat clicks the chat tab button. -/
theorem panelToggle_c7_witness :
    tapUsers domMeeting = ([Effect.click "[jscontroller=soHxf]"], true)
  ∧ tapChat domMeeting = ([Effect.click "[data-tab-id=2]"], true) := by
  have h := panelToggle_c7 domMeeting ⟨some "true"⟩ ⟨none⟩ rfl rfl rfl
  exact ⟨by rw [h.1]; rfl, by rw [h.2]; rfl⟩

/-- C2 counterexample: on a snapshot where the users tab button query
returns nothing, `#tapUsers` throws a TypeError (the source dereferences the
null `userButton` on both branches) instead of skipping silently. -/
theorem silentSkip_c2_counterexample : ¬ (tapUsers domEmpty).2 = true := by
  decide

/-- C2 amended: every tap action and icon update handles a missing element
without throwing, except `#tapUsers` and `#tapChat`, which complete normally
exactly when their tab button query succeeds. -/
theorem silentSkip_c2_amended (cfg : Config) (dom : Dom) :
    (tapStartInstantMeeting dom).2 = true
  ∧ (tapStartNextMeeting dom).2 = true
  ∧ (tapEnterMeeting dom).2 = true
  ∧ (tapMic dom).2 = true ∧ (dom.micButton = none → tapMic dom = ([], true))
  ∧ (tapCam dom).2 = true ∧ (dom.camButton = none → tapCam dom = ([], true))
  ∧ (tapHand dom).2 = true ∧ (dom.handButton = none → tapHand dom = ([], true))
  ∧ (tapCC dom).2 = true ∧ (dom.ccButton = none → tapCC dom = ([], true))
  ∧ (tapClosePanel dom).2 = true
  ∧ (tapStopPresenting dom).2 = true
  ∧ (tapHangUp dom).2 = true
  ∧ (tapRejoin dom).2 = true
  ∧ (tapHome dom).2 = true
  ∧ ((tapUsers dom).2 = true ↔ dom.userTabButton.isSome = true)
  ∧ ((tapChat dom).2 = true ↔ dom.chatTabButton.isSome = true)
  ∧ (dom.micButton = none → updateIsMicMuted cfg dom = [])
  ∧ (dom.camButton = none → updateIsCamMuted cfg dom = [])
  ∧ (dom.handButton = none → updateHandState cfg dom = [])
  ∧ (dom.ccButton = none → updateCCState cfg dom = [])
  ∧ (dom.picker = none →
      updateSidePanel cfg dom = drawButton cfg "users" ++ drawButton cfg "chat") := by
  refine ⟨?_, ?_, ?_, ?_, ?_, ?_, ?_, ?_, ?_, ?_, ?_, ?_, ?_, ?_, ?_, ?_, ?_,
    ?_, ?_, ?_, ?_, ?_, ?_⟩
  · simp [tapStartInstantMeeting, tapElement]
  · simp [tapStartNextMeeting, tapElement]
  · simp [tapEnterMeeting, tapElement]
  · cases h : dom.micButton <;> simp [tapMic, h]
  · intro h
    simp [tapMic, h]
  · cases h : dom.camButton <;> simp [tapCam, h]
  · intro h
    simp [tapCam, h]
  · cases h : dom.handButton <;> simp [tapHand, h]
  · intro h
    simp [tapHand, h]
  · cases h : dom.ccButton <;> simp [tapCC, h]
  · intro h
    simp [tapCC, h]
  · simp [tapClosePanel, tapElement]
  · simp [tapStopPresenting]
  · simp [tapHangUp, tapElement]
  · simp [tapRejoin, tapElement]
  · simp [tapHome, tapElement]
  · cases h : dom.userTabButton with
    | none => simp [tapUsers, h]
    | some tb =>
      simp only [tapUsers, h, Option.isSome_some]
      split <;> simp [tapClosePanel, tapElement]
  · cases h : dom.chatTabButton with
    | none => simp [tapChat, h]
    | some tb =>
      simp only [tapChat, h, Option.isSome_some]
      split <;> simp [tapClosePanel, tapElement]
  · intro h
    simp [updateIsMicMuted, h]
  · intro h
    simp [updateIsCamMuted, h]
  · intro h
    simp [updateHandState, h]
  · intro h
    simp [updateCCState, h]
  · intro h
    simp [updateSidePanel, selectedTabId, h]

/-- C2 amended witness: on the all-empty snapshot the guarded operations all
skip silently, and the users tap fails exactly because the tab button is
absent. -/
theorem silentSkip_c2_amended_witness :
    tapMic domEmpty = ([], true) ∧ updateIsMicMuted cfgHue domEmpty = [] := by
  have h := silentSkip_c2_amended cfgHue domEmpty
  exact ⟨h.2.2.2.2.1 rfl, h.2.2.2.2.2.2.2.2.2.2.2.2.2.2.2.2.2.2.1 rfl⟩

/-- C4: a press whose button id matches neither a global light action nor any
name bound in the current room performs no click, emits no effect, and
leaves the tracker state unchanged. -/
theorem unboundPress_c4 (cfg : Config) (dom : Dom) (st : St) (buttonId : Int)
    (hl1 : cfg.streamDeck.buttonNameToId "light-on" ≠ buttonId)
    (hl2 : cfg.streamDeck.buttonNameToId "light-off" ≠ buttonId)
    (hb : ∀ n ∈ roomBoundNames st.currentRoom,
        cfg.streamDeck.buttonNameToId n ≠ buttonId) :
    handleStreamDeckPress cfg dom st buttonId = (st, [], true) := by
  have h1 : ¬ buttonId = cfg.streamDeck.buttonNameToId "light-on" :=
    fun h => hl1 h.symm
  have h2 : ¬ buttonId = cfg.streamDeck.buttonNameToId "light-off" :=
    fun h => hl2 h.symm
  have hb' : ∀ n ∈ roomBoundNames st.currentRoom,
      ¬ buttonId = cfg.streamDeck.buttonNameToId n :=
    fun n hn h => hb n hn h.symm
  rcases hr : st.currentRoom with _ | r
  · simp [handleStreamDeckPress, h1, h2, hr]
  · cases r with
    | lobby =>
      simp [handleStreamDeckPress, h1, h2, hr,
        hb' "start-next" (by rw [hr]; simp [roomBoundNames]),
        hb' "start-instant" (by rw [hr]; simp [roomBoundNames])]
    | greenRoom =>
      simp [handleStreamDeckPress, h1, h2, hr,
        hb' "enter-meeting" (by rw [hr]; simp [roomBoundNames]),
        hb' "mic" (by rw [hr]; simp [roomBoundNames]),
        hb' "cam" (by rw [hr]; simp [roomBoundNames])]
    | meeting =>
      simp [handleStreamDeckPress, h1, h2, hr,
        hb' "users" (by rw [hr]; simp [roomBoundNames]),
        hb' "chat" (by rw [hr]; simp [roomBoundNames]),
        hb' "present-stop" (by rw [hr]; simp [roomBoundNames]),
        hb' "mic" (by rw [hr]; simp [roomBoundNames]),
        hb' "cam" (by rw [hr]; simp [roomBoundNames]),
        hb' "hand" (by rw [hr]; simp [roomBoundNames]),
        hb' "cc" (by rw [hr]; simp [roomBoundNames]),
        hb' "end-call" (by rw [hr]; simp [roomBoundNames])]
    | exitHall =>
      simp [handleStreamDeckPress, h1, h2, hr,
        hb' "rejoin" (by rw [hr]; simp [roomBoundNames]),
        hb' "home" (by rw [hr]; simp [roomBoundNames])]

/-- C4 witness: with a layout binding every name to id 0, pressing id 5 in
the meeting room does nothing. -/
theorem unboundPress_c4_witness :
    handleStreamDeckPress cfgHue domEmpty stMeeting 5 = (stMeeting, [], true) :=
  unboundPress_c4 cfgHue domEmpty stMeeting 5 (by decide) (by decide)
    (by decide)

/-- Helper: `#updateIsPresenting` never changes the current room. -/
theorem updateIsPresenting_room (cfg : Config) (dom : Dom) (st : St) :
    ((updateIsPresenting cfg dom st).1).currentRoom = st.currentRoom := by
  by_cases h : st.isPresenting = dom.stopPresentingButton <;>
    simp [updateIsPresenting, h]

/-- Helper: after `#enterMeeting` the current room is always meeting (it is
set before the observer attachments that can throw). -/
theorem enterMeeting_room (cfg : Config) (dom : Dom) (st : St) :
    ((enterMeeting cfg dom st).st).currentRoom = some Room.meeting := by
  by_cases h : st.currentRoom = some Room.meeting
  · simp [enterMeeting, h]
  · by_cases hs : dom.statusBar = true
    · by_cases hp : dom.sidePanelElem = true
      · simp [enterMeeting, h, hs, hp]
      · simp [enterMeeting, h, hs, hp]
    · simp [enterMeeting, h, hs]

/-- Helper: after `#enterGreenRoom` the current room is green room. -/
theorem enterGreenRoom_room (cfg : Config) (dom : Dom) (st : St) :
    ((enterGreenRoom cfg dom st).1).currentRoom = some Room.greenRoom := by
  by_cases h : st.currentRoom = some Room.greenRoom
  · simp [enterGreenRoom, h]
  · simp [enterGreenRoom, h]

/-- Helper: after `#enterExitHall` the current room is exit hall. -/
theorem enterExitHall_room (cfg : Config) (st : St) :
    ((enterExitHall cfg st).1).currentRoom = some Room.exitHall := by
  by_cases h : st.currentRoom = some Room.exitHall
  · simp [enterExitHall, h]
  · simp [enterExitHall, h]

/-- Helper: one body observer callback moves the current room to the
classifier match when there is one, and keeps it otherwise. -/
theorem bodyObserverStep_currentRoom (cfg : Config) (dom : Dom) (st : St) :
    ((bodyObserverStep cfg dom st).st).currentRoom
      = (classifyRoom dom).elim st.currentRoom some := by
  unfold bodyObserverStep classifyRoom
  by_cases h1 : dom.hasSecondScreen = true
  · simp only [h1, if_true]
    split
    · simp [updateIsPresenting_room, enterMeeting_room]
    · simp [enterMeeting_room]
  · by_cases h2 : dom.hasGreenRoomMarker = true
    · simp [h1, h2, updateIsPresenting_room, enterGreenRoom_room]
    · by_cases h3 : dom.hasExitHallMarker = true
      · simp [h1, h2, h3, updateIsPresenting_room, enterExitHall_room]
      · simp [h1, h2, h3, updateIsPresenting_room]

/-- C1: over any sequence of body-observer callbacks, the current room is
the room of the last snapshot matched by the classifier (meeting, then green
room, then exit hall, in priority order), or the initial room when none
matched; and when the classifier matches the current room the entry handler
returns immediately, so re-observing the same markers (with an unchanged
presenting state) produces no clear and no redraw. -/
theorem roomTracking_c1 (cfg : Config) :
    (∀ (st : St) (doms : List Dom),
      (bodyRun cfg st doms).currentRoom = lastRoomMatch st.currentRoom doms)
  ∧ (∀ (dom : Dom) (st : St) (r : Room),
      classifyRoom dom = some r → st.currentRoom = some r →
      st.isPresenting = dom.stopPresentingButton →
      bodyObserverStep cfg dom st = ⟨st, [], true⟩) := by
  constructor
  · intro st doms
    induction doms generalizing st with
    | nil => rfl
    | cons d ds ih =>
      show (bodyRun cfg ((bodyObserverStep cfg d st).st) ds).currentRoom = _
      rw [ih, bodyObserverStep_currentRoom]
      rfl
  · intro dom st r hcls hroom hpres
    unfold classifyRoom at hcls
    split at hcls
    next h1 =>
      injection hcls with h
      subst h
      simp [bodyObserverStep, h1, enterMeeting, hroom, updateIsPresenting, hpres]
    next h1 =>
      split at hcls
      next h2 =>
        injection hcls with h
        subst h
        simp [bodyObserverStep, h1, h2, enterGreenRoom, hroom,
          updateIsPresenting, hpres]
      next h2 =>
        split at hcls
        next h3 =>
          injection hcls with h
          subst h
          simp [bodyObserverStep, h1, h2, h3, enterExitHall, hroom,
            updateIsPresenting, hpres]
        next h3 =>
          exact absurd hcls (by simp)

/-- C1 witness: re-observing the meeting markers while already in the
meeting room with an unchanged presenting state is a complete no-op. -/
theorem roomTracking_c1_witness :
    bodyObserverStep cfgHue domMeeting stMeeting = ⟨stMeeting, [], true⟩ :=
  (roomTracking_c1 cfgHue).2 domMeeting stMeeting Room.meeting (by decide)
    rfl rfl

/-- C3: a real transition into the meeting room (connected deck, fully
bound layout, all meeting elements rendered) emits exactly one
clear-all-buttons call, first, followed by fills of the two hue light icons
when the lighting integration is present, then the users and chat side-panel
icons, the mic, cam, hand and captions icons, and the end-call icon. -/
theorem meetingEntry_c3 (cfg : Config) (dom : Dom) (st : St)
    (hroom : ¬ st.currentRoom = some Room.meeting)
    (hconn : cfg.streamDeck.isConnected = true)
    (hmap : ∀ name, 0 ≤ cfg.streamDeck.buttonNameToId name)
    (hsb : dom.statusBar = true) (hsp : dom.sidePanelElem = true)
    (hmic : dom.micButton.isSome = true) (hcam : dom.camButton.isSome = true)
    (hhand : dom.handButton.isSome = true) (hcc : dom.ccButton.isSome = true) :
    ((enterMeeting cfg dom st).effects).count Effect.clearAllButtons = 1
  ∧ ((enterMeeting cfg dom st).effects).head? = some Effect.clearAllButtons
  ∧ ∃ u c m ca hn kn,
      (u = "users-open" ∨ u = "users")
    ∧ (c = "chat-open" ∨ c = "chat")
    ∧ (m = "mic-disabled" ∨ m = "mic")
    ∧ (ca = "cam-disabled" ∨ ca = "cam")
    ∧ (hn = "hand-raised" ∨ hn = "hand")
    ∧ (kn = "cc-on" ∨ kn = "cc")
    ∧ fillNames (enterMeeting cfg dom st).effects
        = (if cfg.hueLights.isSome then ["light-on", "light-off"] else [])
          ++ [u, c, m, ca, hn, kn, "end-call"] := by
  obtain ⟨mb, hmb⟩ := Option.isSome_iff_exists.mp hmic
  obtain ⟨cb, hcb⟩ := Option.isSome_iff_exists.mp hcam
  obtain ⟨hb, hhb⟩ := Option.isSome_iff_exists.mp hhand
  obtain ⟨kb, hkb⟩ := Option.isSome_iff_exists.mp hcc
  have hdraw : ∀ n, drawButton cfg n
      = [Effect.fillURL (cfg.streamDeck.buttonNameToId n) n] :=
    fun n => drawButton_mapped cfg n hconn (hmap n)
  have hes : (enterMeeting cfg dom st).effects
      = Effect.clearAllButtons ::
          ((if cfg.hueLights.isSome then
              [Effect.fillURL (cfg.streamDeck.buttonNameToId "light-on") "light-on",
               Effect.fillURL (cfg.streamDeck.buttonNameToId "light-off") "light-off"]
            else [])
            ++ [Effect.fillURL (cfg.streamDeck.buttonNameToId
                  (if selectedTabId dom = some "1" then "users-open" else "users"))
                  (if selectedTabId dom = some "1" then "users-open" else "users"),
                Effect.fillURL (cfg.streamDeck.buttonNameToId
                  (if selectedTabId dom = some "2" then "chat-open" else "chat"))
                  (if selectedTabId dom = some "2" then "chat-open" else "chat"),
                Effect.fillURL (cfg.streamDeck.buttonNameToId
                  (if mb.isMuted = some "true" then "mic-disabled" else "mic"))
                  (if mb.isMuted = some "true" then "mic-disabled" else "mic"),
                Effect.fillURL (cfg.streamDeck.buttonNameToId
                  (if cb.isMuted = some "true" then "cam-disabled" else "cam"))
                  (if cb.isMuted = some "true" then "cam-disabled" else "cam"),
                Effect.fillURL (cfg.streamDeck.buttonNameToId
                  (if hb.classes.contains "SNTzF" then "hand-raised" else "hand"))
                  (if hb.classes.contains "SNTzF" then "hand-raised" else "hand"),
                Effect.fillURL (cfg.streamDeck.buttonNameToId
                  (if kb.classes.contains "o7y9G" then "cc-on" else "cc"))
                  (if kb.classes.contains "o7y9G" then "cc-on" else "cc"),
                Effect.fillURL (cfg.streamDeck.buttonNameToId "end-call") "end-call"]
            ++ hueAutoOff cfg) := by
    rcases hh : cfg.hueLights with _ | hl <;>
      simp [enterMeeting, hroom, hsb, hsp, resetButtons, hconn, drawHueButtons,
        hh, updateSidePanel, updateIsMicMuted, updateIsCamMuted, updateHandState,
        updateCCState, hmb, hcb, hhb, hkb, hdraw]
  have hOffCount : (hueAutoOff cfg).count Effect.clearAllButtons = 0 := by
    unfold hueAutoOff
    split
    · split <;> rfl
    · rfl
  have hOffFill : fillNames (hueAutoOff cfg) = [] := by
    unfold hueAutoOff
    split
    · split <;> rfl
    · rfl
  refine ⟨?_, ?_, ?_⟩
  · rw [hes]
    rcases cfg.hueLights with _ | hl <;>
      simp [List.count_cons, List.count_append, hOffCount]
  · rw [hes]
    rfl
  · refine ⟨(if selectedTabId dom = some "1" then "users-open" else "users"),
      (if selectedTabId dom = some "2" then "chat-open" else "chat"),
      (if mb.isMuted = some "true" then "mic-disabled" else "mic"),
      (if cb.isMuted = some "true" then "cam-disabled" else "cam"),
      (if hb.classes.contains "SNTzF" then "hand-raised" else "hand"),
      (if kb.classes.contains "o7y9G" then "cc-on" else "cc"),
      ?_, ?_, ?_, ?_, ?_, ?_, ?_⟩
    · split
      · exact Or.inl rfl
      · exact Or.inr rfl
    · split
      · exact Or.inl rfl
      · exact Or.inr rfl
    · split
      · exact Or.inl rfl
      · exact Or.inr rfl
    · split
      · exact Or.inl rfl
      · exact Or.inr rfl
    · split
      · exact Or.inl rfl
      · exact Or.inr rfl
    · split
      · exact Or.inl rfl
      · exact Or.inr rfl
    · rw [hes]
      rcases cfg.hueLights with _ | hl <;>
        simp [fillNames, fillNames_append, hOffFill]

/-- C3 witness: entering the meeting on the rendered meeting snapshot with a
connected, fully bound deck and hue lights present. -/
theorem meetingEntry_c3_witness :
    ((enterMeeting cfgHue domMeeting initSt).effects).count
        Effect.clearAllButtons = 1
  ∧ ((enterMeeting cfgHue domMeeting initSt).effects).head?
        = some Effect.clearAllButtons :=
  ⟨(meetingEntry_c3 cfgHue domMeeting initSt (by decide) rfl
      (fun _ => le_refl 0) rfl rfl rfl rfl rfl rfl).1,
   (meetingEntry_c3 cfgHue domMeeting initSt (by decide) rfl
      (fun _ => le_refl 0) rfl rfl rfl rfl rfl rfl).2.1⟩

/-- C8: the redraw policy is asymmetric exactly as documented. The mic, cam,
hand and captions updates emit a fill on every invocation where their
element exists, reading no stored value (their model functions do not take
the tracker state at all); the presenting update and the side-panel
visibility callback compare the newly derived value against the stored one
and do nothing when it is unchanged. -/
theorem redrawPolicy_c8 (cfg : Config) (dom : Dom) (st : St)
    (hconn : cfg.streamDeck.isConnected = true)
    (hmap : ∀ name, 0 ≤ cfg.streamDeck.buttonNameToId name) :
    (dom.micButton.isSome = true →
      ∃ b n, updateIsMicMuted cfg dom = [Effect.fillURL b n])
  ∧ (dom.camButton.isSome = true →
      ∃ b n, updateIsCamMuted cfg dom = [Effect.fillURL b n])
  ∧ (dom.handButton.isSome = true →
      ∃ b n, updateHandState cfg dom = [Effect.fillURL b n])
  ∧ (dom.ccButton.isSome = true →
      ∃ b n, updateCCState cfg dom = [Effect.fillURL b n])
  ∧ (st.isPresenting = dom.stopPresentingButton →
      updateIsPresenting cfg dom st = (st, []))
  ∧ (st.isSidePanelVisible = dom.picker.isSome →
      sidePanelObserverStep cfg dom st = (st, [])) := by
  have hdraw : ∀ n, drawButton cfg n
      = [Effect.fillURL (cfg.streamDeck.buttonNameToId n) n] :=
    fun n => drawButton_mapped cfg n hconn (hmap n)
  refine ⟨?_, ?_, ?_, ?_, ?_, ?_⟩
  · intro h
    obtain ⟨mb, hmb⟩ := Option.isSome_iff_exists.mp h
    exact ⟨cfg.streamDeck.buttonNameToId
        (if mb.isMuted = some "true" then "mic-disabled" else "mic"),
      (if mb.isMuted = some "true" then "mic-disabled" else "mic"),
      by simp [updateIsMicMuted, hmb, hdraw]⟩
  · intro h
    obtain ⟨cb, hcb⟩ := Option.isSome_iff_exists.mp h
    exact ⟨cfg.streamDeck.buttonNameToId
        (if cb.isMuted = some "true" then "cam-disabled" else "cam"),
      (if cb.isMuted = some "true" then "cam-disabled" else "cam"),
      by simp [updateIsCamMuted, hcb, hdraw]⟩
  · intro h
    obtain ⟨hb, hhb⟩ := Option.isSome_iff_exists.mp h
    exact ⟨cfg.streamDeck.buttonNameToId
        (if hb.classes.contains "SNTzF" then "hand-raised" else "hand"),
      (if hb.classes.contains "SNTzF" then "hand-raised" else "hand"),
      by simp [updateHandState, hhb, hdraw]⟩
  · intro h
    obtain ⟨kb, hkb⟩ := Option.isSome_iff_exists.mp h
    exact ⟨cfg.streamDeck.buttonNameToId
        (if kb.classes.contains "o7y9G" then "cc-on" else "cc"),
      (if kb.classes.contains "o7y9G" then "cc-on" else "cc"),
      by simp [updateCCState, hkb, hdraw]⟩
  · intro h
    simp [updateIsPresenting, h]
  · intro h
    simp [sidePanelObserverStep, h]

/-- C8 witness: on the rendered meeting snapshot the presenting update with
an unchanged value is a no-op while the mic update emits a fill. -/
theorem redrawPolicy_c8_witness :
    updateIsPresenting cfgHue domMeeting initSt = (initSt, [])
  ∧ ∃ b n, updateIsMicMuted cfgHue domMeeting = [Effect.fillURL b n] :=
  ⟨(redrawPolicy_c8 cfgHue domMeeting initSt rfl
      (fun _ => le_refl 0)).2.2.2.2.1 rfl,
   (redrawPolicy_c8 cfgHue domMeeting initSt rfl
      (fun _ => le_refl 0)).1 rfl⟩

set_option maxHeartbeats 1600000 in
/-- Helper: the press dispatcher never writes any tracker field. -/
theorem handleStreamDeckPress_state (cfg : Config) (dom : Dom) (st : St)
    (buttonId : Int) : (handleStreamDeckPress cfg dom st buttonId).1 = st := by
  rcases hh : cfg.hueLights with _ | hl <;>
    rcases hr : st.currentRoom with _ | r <;>
      (try cases r) <;>
        simp [handleStreamDeckPress, hr, hh, apply_ite Prod.fst]

/-- C9: constructed on the landing page path, the wrapper enters the lobby
and returns before creating any mutation observer; no observer of any kind
is attached, and any sequence of device button presses leaves the state (in
particular the current room, forever lobby) unchanged. -/
theorem lobbyOnly_c9 (cfg : Config) (dom : Dom) (h : dom.pathname = "/") :
    (constructorRun cfg dom).1.currentRoom = some Room.lobby
  ∧ (constructorRun cfg dom).1.bodyObs = 0
  ∧ (constructorRun cfg dom).1.muteObs = 0
  ∧ (constructorRun cfg dom).1.statusBarObs = 0
  ∧ (constructorRun cfg dom).1.sidePanelObs = 0
  ∧ (constructorRun cfg dom).1.selectedPanelObs = 0
  ∧ (constructorRun cfg dom).1.handObs = 0
  ∧ (constructorRun cfg dom).1.ccObs = 0
  ∧ ∀ presses : List (Int × Dom),
      presses.foldl (fun s p => (handleStreamDeckPress cfg p.2 s p.1).1)
        (constructorRun cfg dom).1
      = (constructorRun cfg dom).1 := by
  have hfold : ∀ (presses : List (Int × Dom)) (s : St),
      presses.foldl (fun s p => (handleStreamDeckPress cfg p.2 s p.1).1) s = s := by
    intro presses
    induction presses with
    | nil => intro s; rfl
    | cons p ps ih =>
      intro s
      rw [List.foldl_cons, handleStreamDeckPress_state]
      exact ih s
  refine ⟨?_, ?_, ?_, ?_, ?_, ?_, ?_, ?_, fun presses => hfold presses _⟩ <;>
    simp [constructorRun, h, enterLobby, initSt]

/-- C9 witness: constructed on the landing page, the room is lobby and no
body observer exists. -/
theorem lobbyOnly_c9_witness :
    (constructorRun cfgHue domLobby).1.currentRoom = some Room.lobby
  ∧ (constructorRun cfgHue domLobby).1.bodyObs = 0 :=
  ⟨(lobbyOnly_c9 cfgHue domLobby rfl).1, (lobbyOnly_c9 cfgHue domLobby rfl).2.1⟩

/-- Helper: `HandCcInv` and the ready flags only depend on `watchFields`. -/
theorem HandCcInv_of_watchFields {s t : St} (h : watchFields s = watchFields t) :
    (HandCcInv s ↔ HandCcInv t)
  ∧ s.handButtonReady = t.handButtonReady
  ∧ s.ccButtonReady = t.ccButtonReady := by
  obtain ⟨h1, h2, h3, h4⟩ :
      s.handButtonReady = t.handButtonReady ∧ s.handObs = t.handObs
    ∧ s.ccButtonReady = t.ccButtonReady ∧ s.ccObs = t.ccObs := by
    simpa [watchFields, Prod.ext_iff] using h
  simp [HandCcInv, h1, h2, h3, h4]

/-- Helper: `#enterMeeting` does not touch the hand and cc watcher fields. -/
theorem enterMeeting_watchFields (cfg : Config) (dom : Dom) (st : St) :
    watchFields ((enterMeeting cfg dom st).st) = watchFields st := by
  by_cases h : st.currentRoom = some Room.meeting
  · simp [enterMeeting, h]
  · by_cases hs : dom.statusBar = true
    · by_cases hp : dom.sidePanelElem = true
      · simp [enterMeeting, h, hs, hp, watchFields]
      · simp [enterMeeting, h, hs, hp, watchFields]
    · simp [enterMeeting, h, hs, watchFields]

/-- Helper: `#enterGreenRoom` does not touch the watcher fields. -/
theorem enterGreenRoom_watchFields (cfg : Config) (dom : Dom) (st : St) :
    watchFields ((enterGreenRoom cfg dom st).1) = watchFields st := by
  by_cases h : st.currentRoom = some Room.greenRoom <;>
    simp [enterGreenRoom, h, watchFields]

/-- Helper: `#enterExitHall` does not touch the watcher fields. -/
theorem enterExitHall_watchFields (cfg : Config) (st : St) :
    watchFields ((enterExitHall cfg st).1) = watchFields st := by
  by_cases h : st.currentRoom = some Room.exitHall <;>
    simp [enterExitHall, h, watchFields]

/-- Helper: `#updateIsPresenting` does not touch the watcher fields. -/
theorem updateIsPresenting_watchFields (cfg : Config) (dom : Dom) (st : St) :
    watchFields ((updateIsPresenting cfg dom st).1) = watchFields st := by
  by_cases h : st.isPresenting = dom.stopPresentingButton <;>
    simp [updateIsPresenting, h, watchFields]

/-- Helper: the body observer callback does not touch the watcher fields. -/
theorem bodyObserverStep_watchFields (cfg : Config) (dom : Dom) (st : St) :
    watchFields ((bodyObserverStep cfg dom st).st) = watchFields st := by
  unfold bodyObserverStep
  by_cases h1 : dom.hasSecondScreen = true
  · simp only [h1, if_true]
    split
    · simp [updateIsPresenting_watchFields, enterMeeting_watchFields]
    · simp [enterMeeting_watchFields]
  · by_cases h2 : dom.hasGreenRoomMarker = true
    · simp [h1, h2, updateIsPresenting_watchFields, enterGreenRoom_watchFields]
    · by_cases h3 : dom.hasExitHallMarker = true
      · simp [h1, h2, h3, updateIsPresenting_watchFields, enterExitHall_watchFields]
      · simp [h1, h2, h3, updateIsPresenting_watchFields]

/-- Helper: the side panel visibility callback does not touch the watcher
fields. -/
theorem sidePanelObserverStep_watchFields (cfg : Config) (dom : Dom) (st : St) :
    watchFields ((sidePanelObserverStep cfg dom st).1) = watchFields st := by
  unfold sidePanelObserverStep
  by_cases h : st.isSidePanelVisible = dom.picker.isSome
  · simp [h]
  · by_cases hp : dom.picker.isSome = true <;> simp_all [watchFields]

/-- Helper: one pass of the status bar loop body preserves the watcher
invariant and never resets a ready flag. -/
theorem statusBarChangeStep_inv (cfg : Config) (dom : Dom) (st : St) (c : MRec)
    (h : HandCcInv st) :
    HandCcInv ((statusBarChangeStep cfg dom st c).st)
  ∧ (st.handButtonReady = true →
      ((statusBarChangeStep cfg dom st c).st).handButtonReady = true)
  ∧ (st.ccButtonReady = true →
      ((statusBarChangeStep cfg dom st c).st).ccButtonReady = true) := by
  obtain ⟨h1, h2, h3, h4⟩ := h
  unfold statusBarChangeStep setupHandButton setupCCButton
  rcases hhb : dom.handButton with _ | hb <;>
    rcases hcb : dom.ccButton with _ | kb <;>
      cases hr1 : st.handButtonReady <;>
        cases hr2 : st.ccButtonReady <;>
          simp_all [HandCcInv] <;>
            split <;> simp_all

/-- Helper: the status bar observer callback preserves the watcher invariant
and never resets a ready flag. -/
theorem statusBarObserverStep_inv (cfg : Config) (dom : Dom) :
    ∀ (cs : List MRec) (st : St), HandCcInv st →
      HandCcInv ((statusBarObserverStep cfg dom st cs).st)
    ∧ (st.handButtonReady = true →
        ((statusBarObserverStep cfg dom st cs).st).handButtonReady = true)
    ∧ (st.ccButtonReady = true →
        ((statusBarObserverStep cfg dom st cs).st).ccButtonReady = true) := by
  intro cs
  induction cs with
  | nil => exact fun st h => ⟨h, fun x => x, fun x => x⟩
  | cons c cs ih =>
    intro st h
    have hc := statusBarChangeStep_inv cfg dom st c h
    have hrest := ih (statusBarChangeStep cfg dom st c).st hc.1
    simp only [statusBarObserverStep]
    split
    · exact hc
    · exact ⟨hrest.1, fun hx => hrest.2.1 (hc.2.1 hx),
        fun hx => hrest.2.2 (hc.2.2 hx)⟩

/-- Helper: every system event preserves the watcher invariant and never
resets a ready flag. -/
theorem sysStep_inv (cfg : Config) (st : St) (ev : Event) (h : HandCcInv st) :
    HandCcInv (sysStep cfg st ev)
  ∧ (st.handButtonReady = true → (sysStep cfg st ev).handButtonReady = true)
  ∧ (st.ccButtonReady = true → (sysStep cfg st ev).ccButtonReady = true) := by
  cases ev with
  | bodyMut dom =>
    have hw := HandCcInv_of_watchFields (bodyObserverStep_watchFields cfg dom st)
    exact ⟨hw.1.mpr h, fun hx => hw.2.1.trans hx, fun hx => hw.2.2.trans hx⟩
  | muteMut dom => exact ⟨h, fun x => x, fun x => x⟩
  | statusBarMut changes dom => exact statusBarObserverStep_inv cfg dom changes st h
  | sidePanelMut dom =>
    have hw := HandCcInv_of_watchFields (sidePanelObserverStep_watchFields cfg dom st)
    exact ⟨hw.1.mpr h, fun hx => hw.2.1.trans hx, fun hx => hw.2.2.trans hx⟩
  | selectedPanelMut dom => exact ⟨h, fun x => x, fun x => x⟩
  | handMut dom => exact ⟨h, fun x => x, fun x => x⟩
  | ccMut dom => exact ⟨h, fun x => x, fun x => x⟩
  | press buttonId dom =>
    have hs : sysStep cfg st (Event.press buttonId dom) = st :=
      handleStreamDeckPress_state cfg dom st buttonId
    rw [hs]
    exact ⟨h, fun x => x, fun x => x⟩

/-- C10: from any state satisfying the watcher invariant (as the freshly
constructed wrapper does), every sequence of observer callbacks and button
presses keeps each of the hand and cc feature observers attached at most
once, and never resets a ready flag: once set, no later status bar mutation
(nor re-entering the meeting room) attaches a second observer. -/
theorem watchersOnce_c10 (cfg : Config) (st : St) (evs : List Event)
    (h : HandCcInv st) :
    (∀ dom : Dom, HandCcInv (constructorRun cfg dom).1)
  ∧ HandCcInv (sysRun cfg st evs)
  ∧ (st.handButtonReady = true → (sysRun cfg st evs).handButtonReady = true)
  ∧ (st.ccButtonReady = true → (sysRun cfg st evs).ccButtonReady = true)
  ∧ (sysRun cfg st evs).handObs ≤ 1
  ∧ (sysRun cfg st evs).ccObs ≤ 1 := by
  have hrun : ∀ (evs : List Event) (s : St), HandCcInv s →
      HandCcInv (sysRun cfg s evs)
    ∧ (s.handButtonReady = true → (sysRun cfg s evs).handButtonReady = true)
    ∧ (s.ccButtonReady = true → (sysRun cfg s evs).ccButtonReady = true) := by
    intro evs
    induction evs with
    | nil => exact fun s hs => ⟨hs, fun x => x, fun x => x⟩
    | cons e es ih =>
      intro s hs
      have he := sysStep_inv cfg s e hs
      have hrest := ih (sysStep cfg s e) he.1
      exact ⟨hrest.1, fun hx => hrest.2.1 (he.2.1 hx),
        fun hx => hrest.2.2 (he.2.2 hx)⟩
  have hmain := hrun evs st h
  refine ⟨?_, hmain.1, hmain.2.1, hmain.2.2, hmain.1.2.1, hmain.1.2.2.2⟩
  intro dom
  by_cases hp : dom.pathname = "/" <;>
    simp [constructorRun, hp, enterLobby, initSt, HandCcInv]

/-- C10 witness: from the initial state, a status bar mutation that sets up
both watchers followed by arbitrary further events attaches each observer
exactly once and keeps the flags set. -/
theorem watchersOnce_c10_witness :
    HandCcInv (sysRun cfgHue initSt
      [Event.statusBarMut [⟨true, 1⟩] domMeeting,
       Event.statusBarMut [⟨true, 1⟩] domMeeting]) :=
  (watchersOnce_c10 cfgHue initSt
    [Event.statusBarMut [⟨true, 1⟩] domMeeting,
     Event.statusBarMut [⟨true, 1⟩] domMeeting]
    ⟨fun _ => rfl, by decide, fun _ => rfl, by decide⟩).2.1
